import Mathlib

/-!
Verification development for the AgriTech weather-data pipeline
(`src/open_meteo.py`).  The Python module builds query parameters, fetches a
JSON weather response, reshapes the column-oriented time series into a
row-oriented table (a pandas `DataFrame`), annotates it with location
metadata, and optionally exports it.

The embedding below mirrors the source:
* JSON values are `JVal` (strings, rationals standing in for JSON numbers,
  booleans, null, arrays, objects-as-association-lists).
* A parsed response is a `List (String × JVal)` (a Python dict, keys unique,
  insertion-ordered; lookup takes the first match).
* A pandas `DataFrame` is a `Table`: a row count plus an ordered list of
  named columns.
* Fallible steps return `Except Err _`; `Err` mirrors the Python exception
  kinds (`KeyError`, `IndexError`, `TypeError`, pandas' duplicate-column
  error).
* The network is an oracle `fetch : String → params → response`
  standing for `requests.get(base_url, params=params).json()` on a
  successful (2xx) response.
-/

namespace AgriTech

/-- A JSON value, as produced by `response.json()`.  JSON numbers are
modelled as rationals. -/
inductive JVal where
  | str (s : String)
  | num (q : Rat)
  | bool (b : Bool)
  | null
  | arr (vs : List JVal)
  | obj (kvs : List (String × JVal))

instance : Inhabited JVal := ⟨JVal.null⟩

/-- Error kinds raised by `get_weather_data_df`: `KeyError` (with the missing
key), `IndexError`, `TypeError`, and pandas' "column already exists" error
from `DataFrame.insert`. -/
inductive Err where
  | keyNotFound (key : String)
  | indexOutOfRange
  | typeError
  | duplicateColumn (name : String)
deriving DecidableEq, Repr

/-- The message attached to each error, as in the Python source
(`KeyError(f"'{data_key}' not found in the response")`, and CPython's
standard `IndexError` message). -/
def errMessage : Err → String
  | .keyNotFound k => "'" ++ k ++ "' not found in the response"
  | .indexOutOfRange => "list index out of range"
  | .typeError => "type error"
  | .duplicateColumn n => "cannot insert " ++ n ++ ", already exists"

/-- A pandas `DataFrame`: a row count and ordered named columns (each column
holds one value per row). -/
structure Table where
  nrows : Nat
  cols : List (String × List JVal)

/-- Python's `str.startswith`, as a prefix test on the character data. -/
def strStartsWith (s p : String) : Bool :=
  p.data.isPrefixOf s.data

/-- Truthiness of the `location_name` argument (`if location_name:`):
present and non-empty. -/
def locTruthy : Option String → Bool
  | some s => !(s == "")
  | Option.none => false

/-- The string stored in the `location` column. -/
def locStr : Option String → String
  | some s => s
  | Option.none => ""

/-- Truthiness of the `filename` argument (`if export and filename:`). -/
def fnTruthy : Option String → Bool
  | some s => !(s == "")
  | Option.none => false

/-- Embedding of `",".join` over a list of JSON values: succeeds only when
every element is a string (otherwise Python raises `TypeError`). -/
def strsOf : List JVal → Except Err (List String)
  | [] => .ok []
  | JVal.str s :: rest => (strsOf rest).map (fun ss => s :: ss)
  | _ :: _ => .error .typeError

/-- Lines 20–21 of the source: if the query parameter literally named
`"hourly"` is a list, replace it (in place) by the comma-joined string;
every other parameter passes through unchanged. -/
def serializeParams (params : List (String × JVal)) :
    Except Err (List (String × JVal)) :=
  match params.lookup "hourly" with
  | some (JVal.arr vs) =>
      (strsOf vs).map fun ss =>
        params.map fun p =>
          if p.1 = "hourly" then ("hourly", JVal.str (String.intercalate "," ss)) else p
  | _ => .ok params

/-- Line 27–28: `if data_key not in data: raise KeyError(...)`, then
`weather_data = data[data_key]` (which must be a JSON object to be iterated
and indexed by key). -/
def getSeries (data : List (String × JVal)) (data_key : String) :
    Except Err (List (String × JVal)) :=
  match data.lookup data_key with
  | Option.none => .error (.keyNotFound data_key)
  | some (JVal.obj kvs) => .ok kvs
  | some _ => .error .typeError

/-- Line 31: `units = data.get(f"{data_key}_units", {})` (must be an object
to support `units.get`). -/
def getUnits (data : List (String × JVal)) (data_key : String) :
    Except Err (List (String × JVal)) :=
  match data.lookup (data_key ++ "_units") with
  | Option.none => .ok []
  | some (JVal.obj kvs) => .ok kvs
  | some _ => .error .typeError

/-- The value of `units.get(...)` when it succeeds. -/
def unitsD (data : List (String × JVal)) (data_key : String) :
    List (String × JVal) :=
  match data.lookup (data_key ++ "_units") with
  | some (JVal.obj kvs) => kvs
  | _ => []

/-- Whether the `{data_key}_units` field is absent or an object. -/
def unitsOkB (data : List (String × JVal)) (data_key : String) : Bool :=
  match data.lookup (data_key ++ "_units") with
  | Option.none => true
  | some (JVal.obj _) => true
  | some _ => false

/-- Line 32: `timezone = data.get("timezone", "UTC")`.  A JSON null is
falsy, like an empty string; non-string, non-null timezones would be
formatted by the f-string and are out of the modelled scope. -/
def getTimezone (data : List (String × JVal)) : Except Err String :=
  match data.lookup "timezone" with
  | Option.none => .ok "UTC"
  | some (JVal.str s) => .ok s
  | some JVal.null => .ok ""
  | some _ => .error .typeError

/-- The timezone string when `getTimezone` succeeds. -/
def tzD (data : List (String × JVal)) : String :=
  match data.lookup "timezone" with
  | Option.none => "UTC"
  | some (JVal.str s) => s
  | _ => ""

/-- Whether the `timezone` field is absent, a string, or null. -/
def tzOkB (data : List (String × JVal)) : Bool :=
  match data.lookup "timezone" with
  | Option.none => true
  | some (JVal.str _) => true
  | some JVal.null => true
  | some _ => false

/-- Line 34: `time_col_name = f"time ({timezone})" if timezone else "time"`. -/
def mkTimeCol (tz : String) : String :=
  if tz ≠ "" then "time (" ++ tz ++ ")" else "time"

/-- Line 35: `timestamps = weather_data.get("time", [])`. -/
def getTimestamps (wd : List (String × JVal)) : Except Err (List JVal) :=
  match wd.lookup "time" with
  | Option.none => .ok []
  | some (JVal.arr vs) => .ok vs
  | some _ => .error .typeError

/-- Line 42: `unit = units.get(key, "")` — a JSON null unit is falsy like the
empty-string default; non-string, non-null units are out of the modelled
scope. -/
def getUnit (units : List (String × JVal)) (k : String) : Except Err String :=
  match units.lookup k with
  | Option.none => .ok ""
  | some (JVal.str u) => .ok u
  | some JVal.null => .ok ""
  | some _ => .error .typeError

/-- The unit string when `getUnit` succeeds. -/
def unitD (units : List (String × JVal)) (k : String) : String :=
  match units.lookup k with
  | some (JVal.str u) => u
  | _ => ""

/-- Whether `units.get(key, "")` yields a string (absent, string, or null). -/
def unitOkB (units : List (String × JVal)) (k : String) : Bool :=
  match units.lookup k with
  | Option.none => true
  | some (JVal.str _) => true
  | some JVal.null => true
  | some _ => false

/-- Line 43: `label = f"{key} ({unit})" if unit else key`. -/
def mkLabel (k u : String) : String :=
  if u ≠ "" then k ++ " (" ++ u ++ ")" else k

/-- Python dict assignment `row[label] = v`: update in place when the key is
present, else append. -/
def dictInsert (k : String) (v : JVal) (row : List (String × JVal)) :
    List (String × JVal) :=
  if row.any (fun p => p.1 == k) then
    row.map (fun p => if p.1 == k then (k, v) else p)
  else row ++ [(k, v)]

/-- Does this JSON value let itself be indexed as an array? -/
def isArr : JVal → Bool
  | .arr _ => true
  | _ => false

/-- The length of an array value (0 otherwise). -/
def arrLen : JVal → Nat
  | .arr vs => vs.length
  | _ => 0

/-- The underlying list of an array value. -/
def arrD : JVal → List JVal
  | .arr vs => vs
  | _ => []

/-- Lines 40–44, body of the inner loop for one series entry `kv`:
skip `"time"`, look up the unit, build the label, and index the series at
`i` (raising `IndexError` past the end). -/
def rowStep (units : List (String × JVal)) (i : Nat)
    (row : List (String × JVal)) (kv : String × JVal) :
    Except Err (List (String × JVal)) :=
  if kv.1 = "time" then .ok row
  else
    (getUnit units kv.1).bind fun u =>
      match kv.2 with
      | JVal.arr vs =>
          match vs[i]? with
          | some v => .ok (dictInsert (mkLabel kv.1 u) v row)
          | Option.none => .error .indexOutOfRange
      | _ => .error .typeError

/-- Lines 39–44: one iteration of the outer loop — start the row with the
time column and fold the series entries through `rowStep`. -/
def buildRow (tcn : String) (wd units : List (String × JVal)) (i : Nat)
    (t : JVal) : Except Err (List (String × JVal)) :=
  wd.foldlM (rowStep units i) [(tcn, t)]

/-- Lines 37–45: `for i in range(len(timestamps))`, building one row per
timestamp index. -/
def buildRows (tcn : String) (wd units : List (String × JVal))
    (ts : List JVal) : Except Err (List (List (String × JVal))) :=
  (List.range ts.length).mapM fun i =>
    buildRow tcn wd units i (ts.getD i JVal.null)

/-- Column names of `pd.DataFrame(rows)`: keys in order of first appearance
across the rows. -/
def colsOfRows (rows : List (List (String × JVal))) : List String :=
  rows.foldl
    (fun acc row =>
      row.foldl (fun a kv => if a.contains kv.1 then a else a ++ [kv.1]) acc)
    []

/-- Line 47: `df = pd.DataFrame(rows)` — one row per dict, a cell missing
from a row becomes NaN (modelled as null). -/
def dfOfRows (rows : List (List (String × JVal))) : Table :=
  { nrows := rows.length,
    cols := (colsOfRows rows).map fun c =>
      (c, rows.map fun r => (r.lookup c).getD JVal.null) }

/-- `DataFrame.insert(pos, name, scalar)`: refuses a duplicate column name,
checks the position, and broadcasts the scalar down the column. -/
def dfInsert (t : Table) (pos : Nat) (name : String) (v : JVal) :
    Except Err Table :=
  if t.cols.any (fun p => p.1 == name) then .error (.duplicateColumn name)
  else if t.cols.length < pos then .error .indexOutOfRange
  else .ok ⟨t.nrows, t.cols.take pos ++ (name, List.replicate t.nrows v) :: t.cols.drop pos⟩

/-- `DataFrame.insert(pos, name, column_data)` with an explicit column. -/
def dfInsertCol (t : Table) (pos : Nat) (name : String) (vs : List JVal) :
    Except Err Table :=
  if t.cols.any (fun p => p.1 == name) then .error (.duplicateColumn name)
  else if t.cols.length < pos then .error .indexOutOfRange
  else .ok ⟨t.nrows, t.cols.take pos ++ (name, vs) :: t.cols.drop pos⟩

/-- Line 57: `[col for col in df.columns if col.startswith("time")][0]` —
`IndexError` when no column name starts with `"time"`. -/
def firstTimeCol (t : Table) : Except Err String :=
  match (t.cols.map Prod.fst).filter (fun c => strStartsWith c "time") with
  | [] => .error .indexOutOfRange
  | c :: _ => .ok c

/-- Line 58: `time_data = df.pop(time_col)` — returns the column's data and
the table without it. -/
def dfPop (t : Table) (name : String) : List JVal × Table :=
  (((t.cols.find? (fun p => p.1 == name)).map Prod.snd).getD [],
   ⟨t.nrows, t.cols.eraseP (fun p => p.1 == name)⟩)

/-- Lines 49–51: `data.get(field, params.get(field))` — the response's
top-level field when present, else the request parameter, else None. -/
def respGet (data params : List (String × JVal)) (field : String) : JVal :=
  match data.lookup field with
  | some v => v
  | Option.none => (params.lookup field).getD JVal.null

/-- Lines 53–62: insert `latitude`, `longitude`, `elevation` at positions
0, 1, 2; move the first `time*` column to position 3; if the location name
is truthy, insert it as column 0. -/
def postProcess (df : Table) (data params : List (String × JVal))
    (location_name : Option String) : Except Err Table :=
  (dfInsert df 0 "latitude" (respGet data params "latitude")).bind fun df1 =>
  (dfInsert df1 1 "longitude" (respGet data params "longitude")).bind fun df2 =>
  (dfInsert df2 2 "elevation" (respGet data params "elevation")).bind fun df3 =>
  (firstTimeCol df3).bind fun tc =>
  (dfInsertCol (dfPop df3 tc).2 3 tc (dfPop df3 tc).1).bind fun df4 =>
  if locTruthy location_name then
    dfInsert df4 0 "location" (JVal.str (locStr location_name))
  else .ok df4

/-- Lines 27–65 of `get_weather_data_df`, after the HTTP fetch: validate the
data key, reshape the series into rows, post-process the DataFrame, and
report whether a CSV file was written (`if export and filename`).  The
returned flag is the export side effect; the table is returned regardless. -/
def buildFromResponse (data_key : String) (export_ : Bool)
    (filename location_name : Option String)
    (params data : List (String × JVal)) : Except Err (Table × Bool) :=
  (getSeries data data_key).bind fun wd =>
  (getUnits data data_key).bind fun units =>
  (getTimezone data).bind fun tz =>
  (getTimestamps wd).bind fun ts =>
  (buildRows (mkTimeCol tz) wd units ts).bind fun rows =>
  (postProcess (dfOfRows rows) data params location_name).map fun df =>
  (df, export_ && fnTruthy filename)

/-- `get_weather_data_df(base_url, data_key, export, filename,
location_name, **params)`: serialize the `"hourly"` list parameter, fetch
(the oracle `fetch` stands for a successful
`requests.get(base_url, params).json()`), and reshape. -/
def get_weather_data_df
    (fetch : String → List (String × JVal) → List (String × JVal))
    (base_url : String) (data_key : String) (export_ : Bool)
    (filename location_name : Option String)
    (params : List (String × JVal)) : Except Err (Table × Bool) :=
  (serializeParams params).bind fun ps =>
  buildFromResponse data_key export_ filename location_name ps (fetch base_url ps)

/-- Lines 69–98: `get_weather_data_multiple_locations` — iterate the
location mapping in order, injecting each latitude/longitude and the
location name, with `export=False` (and no filename) at every call; collect
the DataFrames. -/
def get_weather_data_multiple_locations
    (fetch : String → List (String × JVal) → List (String × JVal))
    (base_url : String) (locations : List (String × JVal × JVal))
    (data_key : String) (export_ : Bool)
    (params : List (String × JVal)) : Except Err (List Table) :=
  locations.mapM fun l =>
    (get_weather_data_df fetch base_url data_key false Option.none (some l.1)
      (("latitude", l.2.1) :: ("longitude", l.2.2) :: params)).map Prod.fst

/-! ### Helper lemmas -/

theorem getUnits_eq {data : List (String × JVal)} {data_key : String}
    (h : unitsOkB data data_key = true) :
    getUnits data data_key = .ok (unitsD data data_key) := by
  unfold getUnits unitsD unitsOkB at *
  cases hl : List.lookup (data_key ++ "_units") data with
  | none => simp [hl]
  | some v => cases v <;> simp_all [hl]

theorem getTimezone_eq {data : List (String × JVal)}
    (h : tzOkB data = true) :
    getTimezone data = .ok (tzD data) := by
  unfold getTimezone tzD tzOkB at *
  cases hl : List.lookup "timezone" data with
  | none => simp [hl]
  | some v => cases v <;> simp_all [hl]

theorem getUnit_eq {units : List (String × JVal)} {k : String}
    (h : unitOkB units k = true) :
    getUnit units k = .ok (unitD units k) := by
  unfold getUnit unitD unitOkB at *
  cases hl : List.lookup k units with
  | none => simp [hl]
  | some v => cases v <;> simp_all [hl]

theorem exceptBindOk {ε α β : Type} {e : Except ε α} {f : α → Except ε β}
    {b : β} (h : e.bind f = .ok b) : ∃ a, e = .ok a ∧ f a = .ok b := by
  cases e with
  | ok a => exact ⟨a, rfl, h⟩
  | error e => simp [Except.bind] at h

theorem mapM_ok_of_all {α β : Type} (f : α → Except Err β) (g : α → β)
    (xs : List α) (h : ∀ x ∈ xs, f x = .ok (g x)) :
    xs.mapM f = .ok (xs.map g) := by
  induction xs with
  | nil => rfl
  | cons x rest ih =>
      have hx := h x (List.mem_cons_self x rest)
      have hr := ih (fun y hy => h y (List.mem_cons_of_mem x hy))
      rw [List.mapM_cons, hx, hr]
      rfl

theorem mapM_ok_exists {α β : Type} {f : α → Except Err β} {xs : List α}
    (h : ∀ x ∈ xs, ∃ r, f x = .ok r) :
    ∃ rs, xs.mapM f = .ok rs ∧ rs.length = xs.length := by
  induction xs with
  | nil => exact ⟨[], rfl, rfl⟩
  | cons x rest ih =>
      obtain ⟨r, hr⟩ := h x (List.mem_cons_self x rest)
      obtain ⟨rs, hrs, hlen⟩ := ih (fun y hy => h y (List.mem_cons_of_mem x hy))
      refine ⟨r :: rs, ?_, by simp [hlen]⟩
      rw [List.mapM_cons, hr, hrs]
      rfl

theorem mapM_ok_length {α β : Type} {f : α → Except Err β} {xs : List α}
    {ys : List β} (h : xs.mapM f = .ok ys) : ys.length = xs.length := by
  induction xs generalizing ys with
  | nil => simp only [List.mapM_nil] at h; cases h; rfl
  | cons x rest ih =>
      rw [List.mapM_cons] at h
      obtain ⟨a, ha, h2⟩ := exceptBindOk h
      obtain ⟨as, has, h3⟩ := exceptBindOk h2
      cases h3
      simp [ih has]

theorem mapM_ok_get {α β : Type} {f : α → Except Err β} {xs : List α}
    {ys : List β} (h : xs.mapM f = .ok ys) :
    ∀ i (h1 : i < xs.length) (h2 : i < ys.length),
      f (xs.get ⟨i, h1⟩) = .ok (ys.get ⟨i, h2⟩) := by
  induction xs generalizing ys with
  | nil => intro i h1; exact absurd h1 (by simp)
  | cons x rest ih =>
      rw [List.mapM_cons] at h
      obtain ⟨a, ha, h2⟩ := exceptBindOk h
      obtain ⟨as, has, h3⟩ := exceptBindOk h2
      cases h3
      intro i h1 h2
      cases i with
      | zero => simpa using ha
      | succ j => exact ih has j (by simpa using h1) (by simpa using h2)

theorem mapM_range_error {β : Type} {f : Nat → Except Err β} {n m : Nat}
    {e : Err} (hmn : m < n) (hok : ∀ j < m, ∃ r, f j = .ok r)
    (herr : f m = .error e) : (List.range n).mapM f = .error e := by
  have hsplit : n = m + (n - m) := by omega
  rw [hsplit, List.range_add]
  rw [List.mapM_append]
  obtain ⟨rs, hrs, _⟩ := mapM_ok_exists
    (fun j hj => hok j (List.mem_range.mp hj))
  rw [hrs]
  have hnm : n - m = (n - m - 1) + 1 := by omega
  rw [hnm, List.range_succ_eq_map]
  simp only [List.map_cons, List.mapM_cons]
  simp only [Function.comp_apply, Nat.add_zero, herr]
  rfl

/-- The time column's name always starts with `"time"`. -/
theorem mkTimeCol_startsWith (tz : String) :
    strStartsWith (mkTimeCol tz) "time" = true := by
  unfold mkTimeCol strStartsWith
  split
  · rw [List.isPrefixOf_iff_prefix]
    refine ⟨' ' :: '(' :: (tz.data ++ [')']), ?_⟩
    show ("time".data ++ (' ' :: '(' :: (tz.data ++ [')']))) =
      ("time (" ++ tz ++ ")").data
    simp [String.data_append]
  · decide

/-- The head character of the time column's name is `'t'`. -/
theorem mkTimeCol_head (tz : String) :
    (mkTimeCol tz).data.head? = some 't' := by
  unfold mkTimeCol
  split
  · show (("time (" ++ tz ++ ")").data).head? = some 't'
    rw [String.data_append, String.data_append]
    rfl
  · rfl

theorem mkTimeCol_ne (tz s : String) (hs : s.data.head? ≠ some 't') :
    mkTimeCol tz ≠ s := by
  intro h
  have h2 : (mkTimeCol tz).data.head? = s.data.head? :=
    congrArg (fun x => x.data.head?) h
  rw [mkTimeCol_head] at h2
  exact hs h2.symm

theorem mkTimeCol_ne_meta (tz : String) :
    mkTimeCol tz ≠ "latitude" ∧ mkTimeCol tz ≠ "longitude" ∧
    mkTimeCol tz ≠ "elevation" ∧ mkTimeCol tz ≠ "location" :=
  ⟨mkTimeCol_ne tz _ (by decide), mkTimeCol_ne tz _ (by decide),
   mkTimeCol_ne tz _ (by decide), mkTimeCol_ne tz _ (by decide)⟩

/-- The column labels of the non-time series entries, in response order. -/
def labelsOf (wd units : List (String × JVal)) : List String :=
  wd.filterMap fun kv =>
    if kv.1 = "time" then Option.none
    else some (mkLabel kv.1 (unitD units kv.1))

/-- The non-time part of a row at timestamp index `i`, in response order. -/
def rowRest (wd units : List (String × JVal)) (i : Nat) :
    List (String × JVal) :=
  wd.filterMap fun kv =>
    if kv.1 = "time" then Option.none
    else some (mkLabel kv.1 (unitD units kv.1), (arrD kv.2).getD i JVal.null)

theorem labelsOf_cons (kv : String × JVal) (rest units : List (String × JVal)) :
    labelsOf (kv :: rest) units =
      if kv.1 = "time" then labelsOf rest units
      else mkLabel kv.1 (unitD units kv.1) :: labelsOf rest units := by
  unfold labelsOf
  rw [List.filterMap_cons]
  by_cases h : kv.1 = "time" <;> simp [h]

theorem rowRest_cons (kv : String × JVal) (rest units : List (String × JVal))
    (i : Nat) :
    rowRest (kv :: rest) units i =
      if kv.1 = "time" then rowRest rest units i
      else (mkLabel kv.1 (unitD units kv.1), (arrD kv.2).getD i JVal.null)
        :: rowRest rest units i := by
  unfold rowRest
  rw [List.filterMap_cons]
  by_cases h : kv.1 = "time" <;> simp [h]

theorem rowRest_keys (wd units : List (String × JVal)) (i : Nat) :
    (rowRest wd units i).map Prod.fst = labelsOf wd units := by
  unfold rowRest labelsOf
  rw [List.map_filterMap]
  congr 1
  funext kv
  by_cases h : kv.1 = "time" <;> simp [h]

theorem dictInsert_append {k : String} {v : JVal}
    {row : List (String × JVal)} (h : ∀ p ∈ row, p.1 ≠ k) :
    dictInsert k v row = row ++ [(k, v)] := by
  unfold dictInsert
  have hany : row.any (fun p => p.1 == k) = false := by
    rw [List.any_eq_false]
    intro p hp
    simpa using h p hp
  simp [hany]

theorem rowStep_ok {units : List (String × JVal)} {i : Nat}
    {row : List (String × JVal)} {kv : String × JVal}
    (hkt : kv.1 ≠ "time") (hu : unitOkB units kv.1 = true)
    (ha : isArr kv.2 = true) (hlen : i < arrLen kv.2) :
    rowStep units i row kv =
      .ok (dictInsert (mkLabel kv.1 (unitD units kv.1))
        ((arrD kv.2).getD i JVal.null) row) := by
  obtain ⟨k, v⟩ := kv
  cases v with
  | arr vs =>
      have hi : i < vs.length := by simpa [arrLen] using hlen
      unfold rowStep
      rw [if_neg hkt, getUnit_eq hu]
      show (match vs[i]? with
        | some v => Except.ok (dictInsert (mkLabel k (unitD units k)) v row)
        | Option.none => Except.error Err.indexOutOfRange) = _
      rw [List.getElem?_eq_getElem hi]
      simp [arrD, List.getD_eq_getElem?_getD, List.getElem?_eq_getElem hi]
  | str s => simp [isArr] at ha
  | num q => simp [isArr] at ha
  | bool b => simp [isArr] at ha
  | null => simp [isArr] at ha
  | obj kvs => simp [isArr] at ha

theorem rowStep_time {units : List (String × JVal)} {i : Nat}
    {row : List (String × JVal)} {kv : String × JVal} (hkt : kv.1 = "time") :
    rowStep units i row kv = .ok row := by
  unfold rowStep
  rw [if_pos hkt]

theorem rowLoop_eq {units : List (String × JVal)} {i : Nat}
    (wd : List (String × JVal)) :
    ∀ acc : List (String × JVal),
    (∀ kv ∈ wd, kv.1 ≠ "time" → isArr kv.2 = true ∧ i < arrLen kv.2) →
    (∀ kv ∈ wd, unitOkB units kv.1 = true) →
    (labelsOf wd units).Nodup →
    (∀ l ∈ labelsOf wd units, ∀ p ∈ acc, p.1 ≠ l) →
    wd.foldlM (rowStep units i) acc = .ok (acc ++ rowRest wd units i) := by
  induction wd with
  | nil =>
      intro acc _ _ _ _
      simp [rowRest, List.foldlM_nil]
      rfl
  | cons kv rest ih =>
      intro acc h1 h2 h3 h4
      rw [List.foldlM_cons]
      by_cases hkt : kv.1 = "time"
      · rw [rowStep_time hkt]
        show rest.foldlM (rowStep units i) acc = _
        rw [labelsOf_cons] at h3 h4
        rw [rowRest_cons, if_pos hkt]
        rw [if_pos hkt] at h3 h4
        exact ih acc (fun y hy ht => h1 y (List.mem_cons_of_mem kv hy) ht)
          (fun y hy => h2 y (List.mem_cons_of_mem kv hy)) h3 h4
      · obtain ⟨ha, hlen⟩ := h1 kv (List.mem_cons_self kv rest) hkt
        rw [rowStep_ok hkt (h2 kv (List.mem_cons_self kv rest)) ha hlen]
        rw [labelsOf_cons, if_neg hkt] at h3 h4
        have hlab : ∀ p ∈ acc, p.1 ≠ mkLabel kv.1 (unitD units kv.1) :=
          h4 _ (List.mem_cons_self _ _)
        rw [dictInsert_append hlab]
        show rest.foldlM (rowStep units i)
          (acc ++ [(mkLabel kv.1 (unitD units kv.1), (arrD kv.2).getD i JVal.null)]) = _
        rw [List.nodup_cons] at h3
        have step := ih (acc ++ [(mkLabel kv.1 (unitD units kv.1), (arrD kv.2).getD i JVal.null)])
          (fun y hy ht => h1 y (List.mem_cons_of_mem kv hy) ht)
          (fun y hy => h2 y (List.mem_cons_of_mem kv hy)) h3.2 ?_
        · rw [step, rowRest_cons, if_neg hkt]
          simp
        · intro l hl p hp
          rcases List.mem_append.mp hp with hp | hp
          · exact h4 l (List.mem_cons_of_mem _ hl) p hp
          · rcases List.mem_singleton.mp hp with rfl
            intro hc
            have hc' : mkLabel kv.1 (unitD units kv.1) = l := hc
            rw [← hc'] at hl
            exact h3.1 hl

theorem buildRow_eq {tcn : String} {wd units : List (String × JVal)}
    {i : Nat} {t : JVal}
    (h1 : ∀ kv ∈ wd, kv.1 ≠ "time" → isArr kv.2 = true ∧ i < arrLen kv.2)
    (h2 : ∀ kv ∈ wd, unitOkB units kv.1 = true)
    (h3 : (labelsOf wd units).Nodup)
    (htcn : ∀ l ∈ labelsOf wd units, l ≠ tcn) :
    buildRow tcn wd units i t = .ok ((tcn, t) :: rowRest wd units i) := by
  unfold buildRow
  rw [rowLoop_eq wd [(tcn, t)] h1 h2 h3 ?_]
  · rfl
  · intro l hl p hp
    rcases List.mem_singleton.mp hp with rfl
    exact fun hc => (htcn l hl) hc.symm

theorem buildRows_eq {tcn : String} {wd units : List (String × JVal)}
    {ts : List JVal}
    (hser : ∀ kv ∈ wd, kv.1 ≠ "time" → isArr kv.2 = true ∧ ts.length ≤ arrLen kv.2)
    (hu : ∀ kv ∈ wd, unitOkB units kv.1 = true)
    (hnd : (labelsOf wd units).Nodup)
    (htcn : ∀ l ∈ labelsOf wd units, l ≠ tcn) :
    buildRows tcn wd units ts =
      .ok ((List.range ts.length).map fun i =>
        (tcn, ts.getD i JVal.null) :: rowRest wd units i) := by
  unfold buildRows
  apply mapM_ok_of_all
  intro i hi
  have hi' : i < ts.length := List.mem_range.mp hi
  exact buildRow_eq
    (fun kv hkv ht =>
      ⟨(hser kv hkv ht).1, lt_of_lt_of_le hi' (hser kv hkv ht).2⟩)
    hu hnd htcn

theorem keysFold_mem (row : List (String × JVal)) :
    ∀ acc : List String, (∀ kv ∈ row, kv.1 ∈ acc) →
    row.foldl (fun a kv => if a.contains kv.1 then a else a ++ [kv.1]) acc
      = acc := by
  induction row with
  | nil => intro acc _; rfl
  | cons kv rest ih =>
      intro acc h
      rw [List.foldl_cons]
      have hc : acc.contains kv.1 = true := by
        simpa [List.contains] using
          List.elem_iff.mpr (h kv (List.mem_cons_self kv rest))
      simp only [hc, if_true]
      exact ih acc (fun y hy => h y (List.mem_cons_of_mem kv hy))

theorem keysFold_nodup (row : List (String × JVal)) :
    ∀ acc : List String, (acc ++ row.map Prod.fst).Nodup →
    row.foldl (fun a kv => if a.contains kv.1 then a else a ++ [kv.1]) acc
      = acc ++ row.map Prod.fst := by
  induction row with
  | nil => intro acc _; simp
  | cons kv rest ih =>
      intro acc h
      have hnotin : kv.1 ∉ acc := by
        intro hmem
        rw [List.nodup_append] at h
        exact h.2.2 hmem (List.mem_cons_self _ _)
      have hc : acc.contains kv.1 = false := by
        rw [List.contains, List.elem_eq_mem]
        simp [hnotin]
      rw [List.foldl_cons]
      simp only [hc, Bool.false_eq_true, if_false]
      have hnd' : ((acc ++ [kv.1]) ++ rest.map Prod.fst).Nodup := by
        simpa [List.append_assoc] using h
      rw [ih (acc ++ [kv.1]) hnd']
      simp

theorem keysFold_all (rows : List (List (String × JVal))) (K : List String)
    (h : ∀ r ∈ rows, ∀ kv ∈ r, kv.1 ∈ K) :
    rows.foldl
      (fun acc row =>
        row.foldl (fun a kv => if a.contains kv.1 then a else a ++ [kv.1]) acc)
      K = K := by
  induction rows with
  | nil => rfl
  | cons r rest ih =>
      rw [List.foldl_cons, keysFold_mem r K (h r (List.mem_cons_self r rest))]
      exact ih (fun y hy => h y (List.mem_cons_of_mem r hy))

theorem colsOfRows_uniform {K : List String}
    {rows : List (List (String × JVal))} (hne : rows ≠ [])
    (hK : ∀ r ∈ rows, r.map Prod.fst = K) (hnd : K.Nodup) :
    colsOfRows rows = K := by
  unfold colsOfRows
  cases rows with
  | nil => exact absurd rfl hne
  | cons r rest =>
      rw [List.foldl_cons]
      have hr : r.map Prod.fst = K := hK r (List.mem_cons_self r rest)
      have h1 : r.foldl
          (fun a kv => if a.contains kv.1 then a else a ++ [kv.1]) [] = K := by
        have := keysFold_nodup r [] (by simpa [hr] using hnd)
        simpa [hr] using this
      rw [h1]
      exact keysFold_all rest K (fun y hy kv hkv => by
        rw [← hK y (List.mem_cons_of_mem r hy)]
        exact List.mem_map_of_mem Prod.fst hkv)

theorem dfOfRows_nrows (rows : List (List (String × JVal))) :
    (dfOfRows rows).nrows = rows.length := rfl

theorem dfOfRows_names {K : List String}
    {rows : List (List (String × JVal))} (hne : rows ≠ [])
    (hK : ∀ r ∈ rows, r.map Prod.fst = K) (hnd : K.Nodup) :
    (dfOfRows rows).cols.map Prod.fst = K := by
  unfold dfOfRows
  rw [colsOfRows_uniform hne hK hnd, List.map_map]
  have hcomp : (Prod.fst ∘ fun c : String =>
      (c, List.map (fun r => (List.lookup c r).getD JVal.null) rows)) = id := rfl
  rw [hcomp, List.map_id]

theorem dfInsert_eq {t : Table} {pos : Nat} {name : String} {v : JVal}
    (hname : ∀ c ∈ t.cols.map Prod.fst, c ≠ name)
    (hpos : pos ≤ t.cols.length) :
    dfInsert t pos name v =
      .ok ⟨t.nrows, t.cols.take pos
        ++ (name, List.replicate t.nrows v) :: t.cols.drop pos⟩ := by
  unfold dfInsert
  have hany : t.cols.any (fun p => p.1 == name) = false := by
    rw [List.any_eq_false]
    intro p hp
    simpa using hname p.1 (List.mem_map_of_mem Prod.fst hp)
  simp [hany, Nat.not_lt.mpr hpos]

theorem dfInsertCol_eq {t : Table} {pos : Nat} {name : String}
    {vs : List JVal}
    (hname : ∀ c ∈ t.cols.map Prod.fst, c ≠ name)
    (hpos : pos ≤ t.cols.length) :
    dfInsertCol t pos name vs =
      .ok ⟨t.nrows, t.cols.take pos ++ (name, vs) :: t.cols.drop pos⟩ := by
  unfold dfInsertCol
  have hany : t.cols.any (fun p => p.1 == name) = false := by
    rw [List.any_eq_false]
    intro p hp
    simpa using hname p.1 (List.mem_map_of_mem Prod.fst hp)
  simp [hany, Nat.not_lt.mpr hpos]

theorem postProcess_eq (t : Table) (data params : List (String × JVal))
    (location_name : Option String) (tcn : String) (L : List String)
    (hshape : t.cols.map Prod.fst = tcn :: L)
    (hsw : strStartsWith tcn "time" = true)
    (hmetaT : tcn ≠ "latitude" ∧ tcn ≠ "longitude" ∧ tcn ≠ "elevation" ∧
      tcn ≠ "location")
    (hmetaL : ∀ l ∈ L, l ≠ "latitude" ∧ l ≠ "longitude" ∧ l ≠ "elevation" ∧
      l ≠ "location")
    (hLtcn : ∀ l ∈ L, l ≠ tcn) :
    ∃ T, postProcess t data params location_name = .ok T ∧
      T.nrows = t.nrows ∧
      T.cols.map Prod.fst =
        (if locTruthy location_name then ["location"] else [])
          ++ "latitude" :: "longitude" :: "elevation" :: tcn :: L ∧
      T.cols.lookup "latitude" =
        some (List.replicate t.nrows (respGet data params "latitude")) ∧
      T.cols.lookup "longitude" =
        some (List.replicate t.nrows (respGet data params "longitude")) ∧
      T.cols.lookup "elevation" =
        some (List.replicate t.nrows (respGet data params "elevation")) := by
  obtain ⟨hT1, hT2, hT3, hT4⟩ := hmetaT
  generalize hlatv : respGet data params "latitude" = latv
  generalize hlonv : respGet data params "longitude" = lonv
  generalize helev : respGet data params "elevation" = elev
  have hn0lat : ∀ x ∈ t.cols.map Prod.fst, x ≠ "latitude" := by
    rw [hshape]
    intro x hx
    rcases List.mem_cons.mp hx with rfl | hx
    exacts [hT1, (hmetaL x hx).1]
  cases hcols : t.cols with
  | nil => rw [hcols] at hshape; simp at hshape
  | cons c cs =>
      rw [hcols, List.map_cons] at hshape
      injection hshape with hc1 hcs
      have s1 : dfInsert t 0 "latitude" latv =
          .ok ⟨t.nrows, ("latitude", List.replicate t.nrows latv) :: c :: cs⟩ := by
        rw [dfInsert_eq hn0lat (Nat.zero_le _), hcols]
        rfl
      have s2 : dfInsert
          ⟨t.nrows, ("latitude", List.replicate t.nrows latv) :: c :: cs⟩
          1 "longitude" lonv =
          .ok ⟨t.nrows, ("latitude", List.replicate t.nrows latv) ::
            ("longitude", List.replicate t.nrows lonv) :: c :: cs⟩ := by
        rw [dfInsert_eq ?hname2 (by simp)]
        case hname2 =>
          intro x hx
          simp only [List.map_cons] at hx
          rcases List.mem_cons.mp hx with rfl | hx
          · decide
          rcases List.mem_cons.mp hx with rfl | hx
          · rw [hc1]; exact hT2
          · exact (hmetaL x (hcs ▸ hx)).2.1
        rfl
      have s3 : dfInsert
          ⟨t.nrows, ("latitude", List.replicate t.nrows latv) ::
            ("longitude", List.replicate t.nrows lonv) :: c :: cs⟩
          2 "elevation" elev =
          .ok ⟨t.nrows, ("latitude", List.replicate t.nrows latv) ::
            ("longitude", List.replicate t.nrows lonv) ::
            ("elevation", List.replicate t.nrows elev) :: c :: cs⟩ := by
        rw [dfInsert_eq ?hname3 (by simp)]
        case hname3 =>
          intro x hx
          simp only [List.map_cons] at hx
          rcases List.mem_cons.mp hx with rfl | hx
          · decide
          rcases List.mem_cons.mp hx with rfl | hx
          · decide
          rcases List.mem_cons.mp hx with rfl | hx
          · rw [hc1]; exact hT3
          · exact (hmetaL x (hcs ▸ hx)).2.2.1
        rfl
      have d1 : strStartsWith "latitude" "time" = false := by decide
      have d2 : strStartsWith "longitude" "time" = false := by decide
      have d3 : strStartsWith "elevation" "time" = false := by decide
      have s4 : firstTimeCol ⟨t.nrows,
          ("latitude", List.replicate t.nrows latv) ::
          ("longitude", List.replicate t.nrows lonv) ::
          ("elevation", List.replicate t.nrows elev) :: c :: cs⟩ = .ok tcn := by
        unfold firstTimeCol
        simp [List.filter_cons, d1, d2, d3, hc1, hsw]
      have b1 : (("latitude" : String) == tcn) = false :=
        beq_eq_false_iff_ne.mpr (Ne.symm hT1)
      have b2 : (("longitude" : String) == tcn) = false :=
        beq_eq_false_iff_ne.mpr (Ne.symm hT2)
      have b3 : (("elevation" : String) == tcn) = false :=
        beq_eq_false_iff_ne.mpr (Ne.symm hT3)
      have b4 : (c.1 == tcn) = true := by rw [hc1]; exact beq_self_eq_true tcn
      have s5 : dfPop ⟨t.nrows,
          ("latitude", List.replicate t.nrows latv) ::
          ("longitude", List.replicate t.nrows lonv) ::
          ("elevation", List.replicate t.nrows elev) :: c :: cs⟩ tcn =
          (c.2, ⟨t.nrows,
            ("latitude", List.replicate t.nrows latv) ::
            ("longitude", List.replicate t.nrows lonv) ::
            ("elevation", List.replicate t.nrows elev) :: cs⟩) := by
        unfold dfPop
        simp [List.find?_cons, List.eraseP_cons, b1, b2, b3, b4]
      have s6 : dfInsertCol ⟨t.nrows,
          ("latitude", List.replicate t.nrows latv) ::
          ("longitude", List.replicate t.nrows lonv) ::
          ("elevation", List.replicate t.nrows elev) :: cs⟩ 3 tcn c.2 =
          .ok ⟨t.nrows,
            ("latitude", List.replicate t.nrows latv) ::
            ("longitude", List.replicate t.nrows lonv) ::
            ("elevation", List.replicate t.nrows elev) :: (tcn, c.2) :: cs⟩ := by
        rw [dfInsertCol_eq ?hname6 (by simp)]
        case hname6 =>
          intro x hx
          simp only [List.map_cons] at hx
          rcases List.mem_cons.mp hx with rfl | hx
          · exact Ne.symm hT1
          rcases List.mem_cons.mp hx with rfl | hx
          · exact Ne.symm hT2
          rcases List.mem_cons.mp hx with rfl | hx
          · exact Ne.symm hT3
          · exact hLtcn x (hcs ▸ hx)
        rfl
      by_cases hloc : locTruthy location_name = true
      · have s7 : dfInsert ⟨t.nrows,
            ("latitude", List.replicate t.nrows latv) ::
            ("longitude", List.replicate t.nrows lonv) ::
            ("elevation", List.replicate t.nrows elev) :: (tcn, c.2) :: cs⟩
            0 "location" (JVal.str (locStr location_name)) =
            .ok ⟨t.nrows,
              ("location", List.replicate t.nrows (JVal.str (locStr location_name))) ::
              ("latitude", List.replicate t.nrows latv) ::
              ("longitude", List.replicate t.nrows lonv) ::
              ("elevation", List.replicate t.nrows elev) :: (tcn, c.2) :: cs⟩ := by
          rw [dfInsert_eq ?hname7 (Nat.zero_le _)]
          case hname7 =>
            intro x hx
            simp only [List.map_cons] at hx
            rcases List.mem_cons.mp hx with rfl | hx
            · decide
            rcases List.mem_cons.mp hx with rfl | hx
            · decide
            rcases List.mem_cons.mp hx with rfl | hx
            · decide
            rcases List.mem_cons.mp hx with rfl | hx
            · exact hT4
            · exact (hmetaL x (hcs ▸ hx)).2.2.2
          rfl
        have hpp : postProcess t data params location_name =
            .ok ⟨t.nrows,
              ("location", List.replicate t.nrows (JVal.str (locStr location_name))) ::
              ("latitude", List.replicate t.nrows latv) ::
              ("longitude", List.replicate t.nrows lonv) ::
              ("elevation", List.replicate t.nrows elev) :: (tcn, c.2) :: cs⟩ := by
          unfold postProcess
          rw [hlatv, hlonv, helev]
          simp only [s1, Except.bind, s2, s3, s4, s5, s6, hloc, if_true, s7]
        refine ⟨_, hpp, rfl, ?_, ?_, ?_, ?_⟩
        · rw [if_pos hloc]
          simp [hc1, hcs]
        · simp [List.lookup]
        · simp [List.lookup]
        · simp [List.lookup]
      · have hpp : postProcess t data params location_name =
            .ok ⟨t.nrows,
              ("latitude", List.replicate t.nrows latv) ::
              ("longitude", List.replicate t.nrows lonv) ::
              ("elevation", List.replicate t.nrows elev) :: (tcn, c.2) :: cs⟩ := by
          unfold postProcess
          rw [hlatv, hlonv, helev]
          simp only [s1, Except.bind, s2, s3, s4, s5, s6]
          rw [if_neg hloc]
        refine ⟨_, hpp, rfl, ?_, ?_, ?_, ?_⟩
        · rw [if_neg hloc]
          simp [hc1, hcs]
        · simp [List.lookup]
        · simp [List.lookup]
        · simp [List.lookup]

theorem buildFromResponse_shape
    (data_key : String) (export_ : Bool)
    (filename location_name : Option String)
    (params data wd : List (String × JVal)) (ts : List JVal)
    (hwd : data.lookup data_key = some (JVal.obj wd))
    (hts : wd.lookup "time" = some (JVal.arr ts))
    (hne : ts ≠ [])
    (hunits : unitsOkB data data_key = true)
    (htz : tzOkB data = true)
    (hser : ∀ kv ∈ wd, kv.1 ≠ "time" →
      isArr kv.2 = true ∧ ts.length ≤ arrLen kv.2)
    (hunit : ∀ kv ∈ wd, unitOkB (unitsD data data_key) kv.1 = true)
    (hnd : (labelsOf wd (unitsD data data_key)).Nodup)
    (htcn : ∀ l ∈ labelsOf wd (unitsD data data_key), l ≠ mkTimeCol (tzD data))
    (hmeta : ∀ l ∈ labelsOf wd (unitsD data data_key),
      l ≠ "latitude" ∧ l ≠ "longitude" ∧ l ≠ "elevation" ∧ l ≠ "location") :
    ∃ T, buildFromResponse data_key export_ filename location_name params data
        = .ok (T, export_ && fnTruthy filename) ∧
      T.nrows = ts.length ∧
      T.cols.map Prod.fst =
        (if locTruthy location_name then ["location"] else [])
          ++ "latitude" :: "longitude" :: "elevation" :: mkTimeCol (tzD data)
            :: labelsOf wd (unitsD data data_key) ∧
      T.cols.lookup "latitude" =
        some (List.replicate ts.length (respGet data params "latitude")) ∧
      T.cols.lookup "longitude" =
        some (List.replicate ts.length (respGet data params "longitude")) ∧
      T.cols.lookup "elevation" =
        some (List.replicate ts.length (respGet data params "elevation")) := by
  have hgs : getSeries data data_key = .ok wd := by
    unfold getSeries; rw [hwd]
  have hgt : getTimestamps wd = .ok ts := by
    unfold getTimestamps; rw [hts]
  have hrows := buildRows_eq hser hunit hnd htcn
  set rows := (List.range ts.length).map fun i =>
    (mkTimeCol (tzD data), ts.getD i JVal.null)
      :: rowRest wd (unitsD data data_key) i with hrowsdef
  have hlen0 : ts.length ≠ 0 := fun h => hne (List.length_eq_zero.mp h)
  have hrne : rows ≠ [] := by
    intro hcon
    have h2 : rows.length = 0 := by rw [hcon]; rfl
    rw [hrowsdef] at h2
    simp at h2
    exact hne h2
  have hKnd : (mkTimeCol (tzD data)
      :: labelsOf wd (unitsD data data_key)).Nodup := by
    rw [List.nodup_cons]
    exact ⟨fun hmem => htcn _ hmem rfl, hnd⟩
  have hKall : ∀ r ∈ rows, r.map Prod.fst =
      mkTimeCol (tzD data) :: labelsOf wd (unitsD data data_key) := by
    intro r hr
    rw [hrowsdef] at hr
    obtain ⟨i, _, rfl⟩ := List.mem_map.mp hr
    simp [rowRest_keys]
  have hnames : (dfOfRows rows).cols.map Prod.fst =
      mkTimeCol (tzD data) :: labelsOf wd (unitsD data data_key) :=
    dfOfRows_names hrne hKall hKnd
  have hnrows : (dfOfRows rows).nrows = ts.length := by
    rw [dfOfRows_nrows, hrowsdef]; simp
  obtain ⟨T, hpp, hTn, hTnames, hTl1, hTl2, hTl3⟩ :=
    postProcess_eq (dfOfRows rows) data params location_name
      (mkTimeCol (tzD data)) (labelsOf wd (unitsD data data_key))
      hnames (mkTimeCol_startsWith _) (mkTimeCol_ne_meta _) hmeta htcn
  rw [hnrows] at hTl1 hTl2 hTl3
  refine ⟨T, ?_, hTn.trans hnrows, hTnames, hTl1, hTl2, hTl3⟩
  unfold buildFromResponse
  rw [hgs, getUnits_eq hunits, getTimezone_eq htz]
  simp only [Except.bind, hgt, hrows, hpp, Except.map]

theorem exceptMapOk {ε α β : Type} {e : Except ε α} {f : α → β} {b : β}
    (h : e.map f = .ok b) : ∃ a, e = .ok a ∧ f a = b := by
  cases e with
  | ok a => exact ⟨a, rfl, by simpa [Except.map] using h⟩
  | error e => simp [Except.map] at h

theorem rowStep_error {units : List (String × JVal)} {i : Nat}
    {row : List (String × JVal)} {kv : String × JVal}
    (hkt : kv.1 ≠ "time") (hu : unitOkB units kv.1 = true)
    (ha : isArr kv.2 = true) (hlen : arrLen kv.2 ≤ i) :
    rowStep units i row kv = .error .indexOutOfRange := by
  obtain ⟨k, v⟩ := kv
  cases v with
  | arr vs =>
      have hi : vs.length ≤ i := by simpa [arrLen] using hlen
      unfold rowStep
      rw [if_neg hkt, getUnit_eq hu]
      show (match vs[i]? with
        | some v => Except.ok (dictInsert (mkLabel k (unitD units k)) v row)
        | Option.none => Except.error Err.indexOutOfRange) = _
      rw [List.getElem?_eq_none hi]
  | str s => simp [isArr] at ha
  | num q => simp [isArr] at ha
  | bool b => simp [isArr] at ha
  | null => simp [isArr] at ha
  | obj kvs => simp [isArr] at ha

theorem rowLoop_ok_exists {units : List (String × JVal)} {i : Nat}
    (wd : List (String × JVal)) :
    ∀ acc : List (String × JVal),
    (∀ kv ∈ wd, kv.1 ≠ "time" → isArr kv.2 = true ∧ i < arrLen kv.2) →
    (∀ kv ∈ wd, unitOkB units kv.1 = true) →
    ∃ r, wd.foldlM (rowStep units i) acc = .ok r := by
  induction wd with
  | nil => intro acc _ _; exact ⟨acc, rfl⟩
  | cons kv rest ih =>
      intro acc h1 h2
      rw [List.foldlM_cons]
      by_cases hkt : kv.1 = "time"
      · rw [rowStep_time hkt]
        exact ih acc (fun y hy ht => h1 y (List.mem_cons_of_mem kv hy) ht)
          (fun y hy => h2 y (List.mem_cons_of_mem kv hy))
      · obtain ⟨ha, hlen⟩ := h1 kv (List.mem_cons_self kv rest) hkt
        rw [rowStep_ok hkt (h2 kv (List.mem_cons_self kv rest)) ha hlen]
        exact ih _ (fun y hy ht => h1 y (List.mem_cons_of_mem kv hy) ht)
          (fun y hy => h2 y (List.mem_cons_of_mem kv hy))

theorem rowLoop_error {units : List (String × JVal)} {i : Nat}
    (wd : List (String × JVal)) :
    ∀ acc : List (String × JVal),
    (∀ kv ∈ wd, kv.1 ≠ "time" → isArr kv.2 = true ∧ unitOkB units kv.1 = true) →
    (∃ kv ∈ wd, kv.1 ≠ "time" ∧ arrLen kv.2 ≤ i) →
    wd.foldlM (rowStep units i) acc = .error .indexOutOfRange := by
  induction wd with
  | nil =>
      intro acc _ hex
      obtain ⟨kv, hmem, _⟩ := hex
      exact absurd hmem (List.not_mem_nil kv)
  | cons kv rest ih =>
      intro acc h1 hex
      rw [List.foldlM_cons]
      by_cases hkt : kv.1 = "time"
      · rw [rowStep_time hkt]
        obtain ⟨w, hw, hwt, hwl⟩ := hex
        rcases List.mem_cons.mp hw with rfl | hw
        · exact absurd hkt hwt
        · exact ih acc (fun y hy ht => h1 y (List.mem_cons_of_mem kv hy) ht)
            ⟨w, hw, hwt, hwl⟩
      · obtain ⟨ha, hu⟩ := h1 kv (List.mem_cons_self kv rest) hkt
        by_cases hshort : arrLen kv.2 ≤ i
        · rw [rowStep_error hkt hu ha hshort]
          rfl
        · rw [rowStep_ok hkt hu ha (Nat.lt_of_not_le hshort)]
          obtain ⟨w, hw, hwt, hwl⟩ := hex
          rcases List.mem_cons.mp hw with rfl | hw
          · exact absurd hwl hshort
          · exact ih _ (fun y hy ht => h1 y (List.mem_cons_of_mem kv hy) ht)
              ⟨w, hw, hwt, hwl⟩

theorem buildRow_error {tcn : String} {wd units : List (String × JVal)}
    {i : Nat} {t : JVal}
    (h1 : ∀ kv ∈ wd, kv.1 ≠ "time" → isArr kv.2 = true ∧ unitOkB units kv.1 = true)
    (hex : ∃ kv ∈ wd, kv.1 ≠ "time" ∧ arrLen kv.2 ≤ i) :
    buildRow tcn wd units i t = .error .indexOutOfRange :=
  rowLoop_error wd [(tcn, t)] h1 hex

theorem buildRows_error {tcn : String} {wd units : List (String × JVal)}
    {ts : List JVal} {k : String} {vs : List JVal}
    (hk : (k, JVal.arr vs) ∈ wd) (hkt : k ≠ "time")
    (hshort : vs.length < ts.length)
    (hmin : ∀ kv ∈ wd, kv.1 ≠ "time" →
      isArr kv.2 = true ∧ vs.length ≤ arrLen kv.2)
    (hu : ∀ kv ∈ wd, unitOkB units kv.1 = true) :
    buildRows tcn wd units ts = .error .indexOutOfRange := by
  unfold buildRows
  apply mapM_range_error hshort
  · intro j hj
    exact rowLoop_ok_exists wd [(tcn, ts.getD j JVal.null)]
      (fun kv hkv ht =>
        ⟨(hmin kv hkv ht).1, Nat.lt_of_lt_of_le hj (hmin kv hkv ht).2⟩)
      hu
  · exact buildRow_error
      (fun kv hkv ht => ⟨(hmin kv hkv ht).1, hu kv hkv⟩)
      ⟨(k, JVal.arr vs), hk, hkt, by simp [arrLen]⟩

theorem strsOf_map (ss : List String) :
    strsOf (ss.map JVal.str) = .ok ss := by
  induction ss with
  | nil => rfl
  | cons s rest ih =>
      show (strsOf (rest.map JVal.str)).map (fun ss => s :: ss) = _
      rw [ih]
      rfl

theorem lookup_serialize_self {params : List (String × JVal)} {v : JVal}
    (hmem : (params.lookup "hourly").isSome) :
    (params.map fun p =>
      if p.1 = "hourly" then ("hourly", v) else p).lookup "hourly" = some v := by
  induction params with
  | nil => simp at hmem
  | cons p rest ih =>
      by_cases hp : p.1 = "hourly"
      · rw [List.map_cons, if_pos hp]
        simp [List.lookup]
      · have hb : (("hourly" : String) == p.1) = false :=
          beq_eq_false_iff_ne.mpr (fun h => hp h.symm)
        rw [List.map_cons, if_neg hp]
        simp only [List.lookup, hb] at hmem ⊢
        exact ih hmem

theorem lookup_serialize_other {params : List (String × JVal)} {v : JVal}
    {k : String} (hk : k ≠ "hourly") :
    (params.map fun p =>
      if p.1 = "hourly" then ("hourly", v) else p).lookup k
      = params.lookup k := by
  induction params with
  | nil => rfl
  | cons p rest ih =>
      by_cases hp : p.1 = "hourly"
      · have hb1 : (k == "hourly") = false := beq_eq_false_iff_ne.mpr hk
        have hb2 : (k == p.1) = false :=
          beq_eq_false_iff_ne.mpr (fun h => hk (hp ▸ h))
        rw [List.map_cons, if_pos hp]
        simp only [List.lookup, hb1, hb2]
        exact ih
      · rw [List.map_cons, if_neg hp]
        simp only [List.lookup]
        cases hb : (k == p.1) with
        | true => simp only [hb]
        | false => simp only [hb]; exact ih

theorem serializeParams_other {params ps : List (String × JVal)}
    (hs : serializeParams params = .ok ps) {k : String} (hk : k ≠ "hourly") :
    ps.lookup k = params.lookup k := by
  unfold serializeParams at hs
  cases hl : params.lookup "hourly" with
  | none =>
      rw [hl] at hs
      cases hs
      rfl
  | some v =>
      cases v with
      | arr vs =>
          rw [hl] at hs
          obtain ⟨ss, _, rfl⟩ := exceptMapOk hs
          exact lookup_serialize_other hk
      | str s => rw [hl] at hs; cases hs; rfl
      | num q => rw [hl] at hs; cases hs; rfl
      | bool b => rw [hl] at hs; cases hs; rfl
      | null => rw [hl] at hs; cases hs; rfl
      | obj kvs => rw [hl] at hs; cases hs; rfl

theorem respGet_of_data {data params : List (String × JVal)} {field : String}
    {v : JVal} (h : data.lookup field = some v) :
    respGet data params field = v := by
  unfold respGet
  rw [h]

theorem respGet_of_params {data params : List (String × JVal)} {field : String}
    (h : data.lookup field = Option.none) :
    respGet data params field = (params.lookup field).getD JVal.null := by
  unfold respGet
  rw [h]

theorem mem_labelsOf {wd units : List (String × JVal)} {k : String} {v : JVal}
    (hk : (k, v) ∈ wd) (hkt : k ≠ "time") :
    mkLabel k (unitD units k) ∈ labelsOf wd units := by
  unfold labelsOf
  exact List.mem_filterMap.mpr ⟨(k, v), hk, by simp [hkt]⟩

theorem gw_export_false
    {fetch : String → List (String × JVal) → List (String × JVal)}
    {base_url data_key : String} {location_name : Option String}
    {params : List (String × JVal)} {T : Table} {w : Bool}
    (h : get_weather_data_df fetch base_url data_key false Option.none
      location_name params = .ok (T, w)) : w = false := by
  unfold get_weather_data_df at h
  obtain ⟨ps, _, h2⟩ := exceptBindOk h
  unfold buildFromResponse at h2
  obtain ⟨wd, _, h3⟩ := exceptBindOk h2
  obtain ⟨units, _, h4⟩ := exceptBindOk h3
  obtain ⟨tz, _, h5⟩ := exceptBindOk h4
  obtain ⟨ts, _, h6⟩ := exceptBindOk h5
  obtain ⟨rows, _, h7⟩ := exceptBindOk h6
  obtain ⟨df, _, h8⟩ := exceptMapOk h7
  have : w = (df, false && fnTruthy Option.none).2 := by rw [h8]
  simpa using this

/-! ### Concrete sample data for witnesses -/

/-- Timestamps of the sample response. -/
def tsW : List JVal := [JVal.str "2024-01-01T00:00", JVal.str "2024-01-01T01:00"]

/-- The `hourly` series of the sample response: a time array and two
variables, one with a unit and one without. -/
def wdW : List (String × JVal) :=
  [("time", JVal.arr tsW),
   ("temperature_2m", JVal.arr [JVal.num 5, JVal.num 6]),
   ("precipitation", JVal.arr [JVal.num 0, JVal.num 1])]

/-- A well-formed sample response, shaped like the Open-Meteo API output. -/
def respW : List (String × JVal) :=
  [("latitude", JVal.num 20),
   ("longitude", JVal.num 74),
   ("elevation", JVal.num 600),
   ("timezone", JVal.str "UTC"),
   ("hourly_units", JVal.obj [("temperature_2m", JVal.str "°C")]),
   ("hourly", JVal.obj wdW)]

/-- A network oracle that always answers with the sample response. -/
def fetchW : String → List (String × JVal) → List (String × JVal) :=
  fun _ _ => respW

/-! ### Claim theorems -/

/-- C1: for every successful response containing the data key (well-formed
as the spec's data model requires: the series under the data key are arrays
at least as long as the timestamp array, units and timezone are strings, and
the derived column labels are distinct and do not collide with the metadata
columns), `get_weather_data_df`'s reshaping produces a Table with exactly
`len(timestamps)` rows, one per index of the time array. -/
theorem c1_row_count
    (data_key : String) (export_ : Bool)
    (filename location_name : Option String)
    (params data wd : List (String × JVal)) (ts : List JVal)
    (hwd : data.lookup data_key = some (JVal.obj wd))
    (hts : wd.lookup "time" = some (JVal.arr ts))
    (hne : ts ≠ [])
    (hunits : unitsOkB data data_key = true)
    (htz : tzOkB data = true)
    (hser : ∀ kv ∈ wd, kv.1 ≠ "time" →
      isArr kv.2 = true ∧ ts.length ≤ arrLen kv.2)
    (hunit : ∀ kv ∈ wd, unitOkB (unitsD data data_key) kv.1 = true)
    (hnd : (labelsOf wd (unitsD data data_key)).Nodup)
    (htcn : ∀ l ∈ labelsOf wd (unitsD data data_key), l ≠ mkTimeCol (tzD data))
    (hmeta : ∀ l ∈ labelsOf wd (unitsD data data_key),
      l ≠ "latitude" ∧ l ≠ "longitude" ∧ l ≠ "elevation" ∧ l ≠ "location") :
    ∃ T w, buildFromResponse data_key export_ filename location_name params
        data = .ok (T, w) ∧ T.nrows = ts.length := by
  obtain ⟨T, h1, h2, _⟩ := buildFromResponse_shape data_key export_ filename
    location_name params data wd ts hwd hts hne hunits htz hser hunit hnd
    htcn hmeta
  exact ⟨T, _, h1, h2⟩

/-- Witness for C1 on the concrete sample response: the `hourly` key holds
the series, the time array has two entries, and the produced Table has two
rows. -/
theorem c1_row_count_witness :
    respW.lookup "hourly" = some (JVal.obj wdW) ∧
    wdW.lookup "time" = some (JVal.arr tsW) ∧
    (∃ T w, buildFromResponse "hourly" false Option.none Option.none []
      respW = .ok (T, w) ∧ T.nrows = tsW.length) := by
  refine ⟨rfl, rfl, ?_⟩
  exact c1_row_count "hourly" false Option.none Option.none [] respW wdW tsW
    rfl rfl (by simp [tsW]) rfl rfl (by decide) (by decide) (by decide)
    (by decide) (by decide)

/-- C2: for every successful call (on a well-formed response as in C1), the
returned Table's column order is: the `location` column first when a truthy
location label was supplied, then `latitude`, `longitude`, `elevation`, the
time column, and then the remaining variables' labels in the order their
series appear in the response. -/
theorem c2_column_order
    (data_key : String) (export_ : Bool)
    (filename location_name : Option String)
    (params data wd : List (String × JVal)) (ts : List JVal)
    (hwd : data.lookup data_key = some (JVal.obj wd))
    (hts : wd.lookup "time" = some (JVal.arr ts))
    (hne : ts ≠ [])
    (hunits : unitsOkB data data_key = true)
    (htz : tzOkB data = true)
    (hser : ∀ kv ∈ wd, kv.1 ≠ "time" →
      isArr kv.2 = true ∧ ts.length ≤ arrLen kv.2)
    (hunit : ∀ kv ∈ wd, unitOkB (unitsD data data_key) kv.1 = true)
    (hnd : (labelsOf wd (unitsD data data_key)).Nodup)
    (htcn : ∀ l ∈ labelsOf wd (unitsD data data_key), l ≠ mkTimeCol (tzD data))
    (hmeta : ∀ l ∈ labelsOf wd (unitsD data data_key),
      l ≠ "latitude" ∧ l ≠ "longitude" ∧ l ≠ "elevation" ∧ l ≠ "location") :
    ∃ T w, buildFromResponse data_key export_ filename location_name params
        data = .ok (T, w) ∧
      T.cols.map Prod.fst =
        (if locTruthy location_name then ["location"] else [])
          ++ "latitude" :: "longitude" :: "elevation" :: mkTimeCol (tzD data)
            :: labelsOf wd (unitsD data data_key) := by
  obtain ⟨T, h1, _, h3, _⟩ := buildFromResponse_shape data_key export_
    filename location_name params data wd ts hwd hts hne hunits htz hser
    hunit hnd htcn hmeta
  exact ⟨T, _, h1, h3⟩

/-- Witness for C2 on the concrete sample response with location label
`"Nashik"`: the columns come out as location, latitude, longitude,
elevation, the timezone-labelled time column, then the two variables in
response order. -/
theorem c2_column_order_witness :
    respW.lookup "hourly" = some (JVal.obj wdW) ∧
    (∃ T w, buildFromResponse "hourly" false Option.none (some "Nashik") []
        respW = .ok (T, w) ∧
      T.cols.map Prod.fst =
        (if locTruthy (some "Nashik") then ["location"] else [])
          ++ "latitude" :: "longitude" :: "elevation" :: mkTimeCol (tzD respW)
            :: labelsOf wdW (unitsD respW "hourly")) := by
  refine ⟨rfl, ?_⟩
  exact c2_column_order "hourly" false Option.none (some "Nashik") [] respW
    wdW tsW rfl rfl (by simp [tsW]) rfl rfl (by decide) (by decide)
    (by decide) (by decide) (by decide)

/-- C3: whenever the parsed response lacks the requested data key,
`get_weather_data_df` fails with a `KeyError` carrying the missing key's
name (its message is `'{data_key}' not found in the response`), and no
Table is produced. -/
theorem c3_missing_key
    (fetch : String → List (String × JVal) → List (String × JVal))
    (base_url data_key : String) (export_ : Bool)
    (filename location_name : Option String)
    (params ps : List (String × JVal))
    (hs : serializeParams params = .ok ps)
    (hmiss : (fetch base_url ps).lookup data_key = Option.none) :
    get_weather_data_df fetch base_url data_key export_ filename
      location_name params = .error (.keyNotFound data_key) ∧
    errMessage (.keyNotFound data_key) =
      "'" ++ data_key ++ "' not found in the response" := by
  constructor
  · have hgs : getSeries (fetch base_url ps) data_key =
        .error (.keyNotFound data_key) := by
      unfold getSeries
      rw [hmiss]
    unfold get_weather_data_df buildFromResponse
    rw [hs]
    simp only [Except.bind, hgs]
  · rfl

/-- Witness for C3: asking the sample response for the absent `daily` key
fails with a `KeyError` naming `daily`. -/
theorem c3_missing_key_witness :
    serializeParams [] = .ok [] ∧
    respW.lookup "daily" = Option.none ∧
    (get_weather_data_df fetchW "https://api.open-meteo.com/v1/forecast"
        "daily" false Option.none Option.none [] =
      .error (.keyNotFound "daily") ∧
    errMessage (.keyNotFound "daily") =
      "'" ++ "daily" ++ "' not found in the response") := by
  refine ⟨rfl, rfl, ?_⟩
  exact c3_missing_key fetchW "https://api.open-meteo.com/v1/forecast"
    "daily" false Option.none Option.none [] [] rfl rfl

/-- C4 counterexample: the claim as stated says the label is the variable
name directly followed by the parenthesized unit, `"{variable}({unit})"`.
On the sample response the reshaper produces the column label
`"temperature_2m (°C)"` — with a space before the parenthesis, as in the
source's f-string `f"{key} ({unit})"` — and the claimed spelling
`"temperature_2m(°C)"` is not a column of the produced Table. -/
theorem c4_label_counterexample :
    (buildFromResponse "hourly" false Option.none Option.none []
        respW).toOption.map (fun r => r.1.cols.map Prod.fst)
      = some ["latitude", "longitude", "elevation", "time (UTC)",
              "temperature_2m (°C)", "precipitation"] ∧
    "temperature_2m(°C)" ∉
      ["latitude", "longitude", "elevation", "time (UTC)",
       "temperature_2m (°C)", "precipitation"] ∧
    "temperature_2m (°C)" ≠ "temperature_2m(°C)" :=
  ⟨rfl, by decide, by decide⟩

/-- C4 (amended): for every series variable other than `time`, the Row's
column label equals `"{variable} ({unit})"` — the variable name, a space,
then the parenthesized unit — when a non-empty unit string exists for that
variable in the `{data_key}_units` mapping, and the bare variable name
otherwise; that label appears among the produced Table's columns. -/
theorem c4_label_space
    (data_key : String) (export_ : Bool)
    (filename location_name : Option String)
    (params data wd : List (String × JVal)) (ts : List JVal)
    (hwd : data.lookup data_key = some (JVal.obj wd))
    (hts : wd.lookup "time" = some (JVal.arr ts))
    (hne : ts ≠ [])
    (hunits : unitsOkB data data_key = true)
    (htz : tzOkB data = true)
    (hser : ∀ kv ∈ wd, kv.1 ≠ "time" →
      isArr kv.2 = true ∧ ts.length ≤ arrLen kv.2)
    (hunit : ∀ kv ∈ wd, unitOkB (unitsD data data_key) kv.1 = true)
    (hnd : (labelsOf wd (unitsD data data_key)).Nodup)
    (htcn : ∀ l ∈ labelsOf wd (unitsD data data_key), l ≠ mkTimeCol (tzD data))
    (hmeta : ∀ l ∈ labelsOf wd (unitsD data data_key),
      l ≠ "latitude" ∧ l ≠ "longitude" ∧ l ≠ "elevation" ∧ l ≠ "location")
    (k : String) (v : JVal) (hk : (k, v) ∈ wd) (hkt : k ≠ "time") :
    ∃ T w, buildFromResponse data_key export_ filename location_name params
        data = .ok (T, w) ∧
      mkLabel k (unitD (unitsD data data_key) k) ∈ T.cols.map Prod.fst ∧
      (unitD (unitsD data data_key) k ≠ "" →
        mkLabel k (unitD (unitsD data data_key) k) =
          k ++ " (" ++ unitD (unitsD data data_key) k ++ ")") ∧
      (unitD (unitsD data data_key) k = "" →
        mkLabel k (unitD (unitsD data data_key) k) = k) := by
  obtain ⟨T, h1, _, h3, _⟩ := buildFromResponse_shape data_key export_
    filename location_name params data wd ts hwd hts hne hunits htz hser
    hunit hnd htcn hmeta
  refine ⟨T, _, h1, ?_, fun hu => by simp [mkLabel, hu],
    fun hu => by simp [mkLabel, hu]⟩
  rw [h3]
  exact List.mem_append_right _ (List.mem_cons_of_mem _
    (List.mem_cons_of_mem _ (List.mem_cons_of_mem _
      (List.mem_cons_of_mem _ (mem_labelsOf hk hkt)))))

/-- Witness for the amended C4 on the sample response: `temperature_2m` has
the non-empty unit `°C`, and the spaced label is a column of the Table. -/
theorem c4_label_space_witness :
    ("temperature_2m", JVal.arr [JVal.num 5, JVal.num 6]) ∈ wdW ∧
    unitD (unitsD respW "hourly") "temperature_2m" = "°C" ∧
    (∃ T w, buildFromResponse "hourly" false Option.none Option.none []
        respW = .ok (T, w) ∧
      mkLabel "temperature_2m" (unitD (unitsD respW "hourly")
        "temperature_2m") ∈ T.cols.map Prod.fst ∧
      (unitD (unitsD respW "hourly") "temperature_2m" ≠ "" →
        mkLabel "temperature_2m" (unitD (unitsD respW "hourly")
          "temperature_2m") =
          "temperature_2m" ++ " (" ++ unitD (unitsD respW "hourly")
            "temperature_2m" ++ ")") ∧
      (unitD (unitsD respW "hourly") "temperature_2m" = "" →
        mkLabel "temperature_2m" (unitD (unitsD respW "hourly")
          "temperature_2m") = "temperature_2m")) := by
  refine ⟨?hmem, rfl, ?_⟩
  case hmem =>
    unfold wdW
    exact List.mem_cons_of_mem _ (List.mem_cons_self _ _)
  exact c4_label_space "hourly" false Option.none Option.none [] respW wdW
    tsW rfl rfl (by simp [tsW]) rfl rfl (by decide) (by decide) (by decide)
    (by decide) (by decide) "temperature_2m" (JVal.arr [JVal.num 5, JVal.num 6])
    (by unfold wdW; exact List.mem_cons_of_mem _ (List.mem_cons_self _ _))
    (by decide)

/-- C5: when the `hourly` query parameter is a list of strings, the
serialization step replaces it by the single comma-joined string and leaves
every other parameter unchanged; the fetch is performed on exactly those
serialized parameters. -/
theorem c5_hourly_serialization
    (params : List (String × JVal)) (ss : List String)
    (h : params.lookup "hourly" = some (JVal.arr (ss.map JVal.str))) :
    ∃ ps, serializeParams params = .ok ps ∧
      ps.lookup "hourly" = some (JVal.str (String.intercalate "," ss)) ∧
      (∀ k, k ≠ "hourly" → ps.lookup k = params.lookup k) ∧
      ∀ fetch base_url data_key (export_ : Bool) filename location_name,
        get_weather_data_df fetch base_url data_key export_ filename
          location_name params
          = buildFromResponse data_key export_ filename location_name ps
              (fetch base_url ps) := by
  have hs : serializeParams params = .ok (params.map fun p =>
      if p.1 = "hourly"
      then ("hourly", JVal.str (String.intercalate "," ss)) else p) := by
    unfold serializeParams
    rw [h]
    show (strsOf (ss.map JVal.str)).map _ = _
    rw [strsOf_map]
    rfl
  refine ⟨_, hs, lookup_serialize_self (by rw [h]; rfl),
    fun k hk => lookup_serialize_other hk, ?_⟩
  intro fetch base_url data_key export_ filename location_name
  unfold get_weather_data_df
  rw [hs]
  rfl

/-- Witness for C5: the list `["temperature_2m", "precipitation"]` is
joined to the literal string `"temperature_2m,precipitation"`, the other
parameters survive untouched. -/
theorem c5_hourly_serialization_witness :
    [("latitude", JVal.num 20),
     ("hourly", JVal.arr [JVal.str "temperature_2m", JVal.str "precipitation"]),
     ("start_date", JVal.str "2024-01-01")].lookup "hourly"
      = some (JVal.arr (["temperature_2m", "precipitation"].map JVal.str)) ∧
    String.intercalate "," ["temperature_2m", "precipitation"]
      = "temperature_2m,precipitation" ∧
    (∃ ps, serializeParams
        [("latitude", JVal.num 20),
         ("hourly", JVal.arr [JVal.str "temperature_2m", JVal.str "precipitation"]),
         ("start_date", JVal.str "2024-01-01")] = .ok ps ∧
      ps.lookup "hourly" = some (JVal.str
        (String.intercalate "," ["temperature_2m", "precipitation"])) ∧
      (∀ k, k ≠ "hourly" → ps.lookup k =
        [("latitude", JVal.num 20),
         ("hourly", JVal.arr [JVal.str "temperature_2m", JVal.str "precipitation"]),
         ("start_date", JVal.str "2024-01-01")].lookup k) ∧
      ∀ fetch base_url data_key (export_ : Bool) filename location_name,
        get_weather_data_df fetch base_url data_key export_ filename
          location_name
          [("latitude", JVal.num 20),
           ("hourly", JVal.arr [JVal.str "temperature_2m", JVal.str "precipitation"]),
           ("start_date", JVal.str "2024-01-01")]
          = buildFromResponse data_key export_ filename location_name ps
              (fetch base_url ps)) := by
  refine ⟨rfl, rfl, ?_⟩
  exact c5_hourly_serialization _ ["temperature_2m", "precipitation"] rfl

/-- C10: the comma-join applies only to the parameter literally named
`hourly` — `serializeParams` does not take the data key at all — so a list
value under any other name, e.g. `daily`, reaches the transport layer
unjoined even when `data_key = "daily"`. -/
theorem c10_join_only_hourly
    (params : List (String × JVal)) (vs : List JVal)
    (h : params.lookup "daily" = some (JVal.arr vs)) :
    (∀ ps, serializeParams params = .ok ps →
      ps.lookup "daily" = some (JVal.arr vs)) ∧
    ∀ ps, serializeParams params = .ok ps →
      ∀ fetch base_url (export_ : Bool) filename location_name,
        get_weather_data_df fetch base_url "daily" export_ filename
            location_name params
          = buildFromResponse "daily" export_ filename location_name ps
              (fetch base_url ps) := by
  constructor
  · intro ps hs
    rw [serializeParams_other hs (by decide), h]
  · intro ps hs fetch base_url export_ filename location_name
    unfold get_weather_data_df
    rw [hs]
    rfl

/-- Witness for C10: a `daily` list parameter passes through the
serialization step unjoined. -/
theorem c10_join_only_hourly_witness :
    [("daily", JVal.arr [JVal.str "temperature_2m_max"])].lookup "daily"
      = some (JVal.arr [JVal.str "temperature_2m_max"]) ∧
    serializeParams [("daily", JVal.arr [JVal.str "temperature_2m_max"])]
      = .ok [("daily", JVal.arr [JVal.str "temperature_2m_max"])] ∧
    ((∀ ps, serializeParams
        [("daily", JVal.arr [JVal.str "temperature_2m_max"])] = .ok ps →
      ps.lookup "daily" = some (JVal.arr [JVal.str "temperature_2m_max"])) ∧
    ∀ ps, serializeParams
        [("daily", JVal.arr [JVal.str "temperature_2m_max"])] = .ok ps →
      ∀ fetch base_url (export_ : Bool) filename location_name,
        get_weather_data_df fetch base_url "daily" export_ filename
            location_name [("daily", JVal.arr [JVal.str "temperature_2m_max"])]
          = buildFromResponse "daily" export_ filename location_name ps
              (fetch base_url ps)) := by
  refine ⟨rfl, rfl, ?_⟩
  exact c10_join_only_hourly _ [JVal.str "temperature_2m_max"] rfl

/-- C6: the multi-location driver returns one Table per location in the
mapping's iteration order; each is produced by the single-location call
with that location's latitude/longitude injected in front of the shared
parameters and the location name attached, and export is forced off (the
call's export flag is `false`, no file is written, and the caller-supplied
export flag does not influence the result at all). -/
theorem c6_driver
    (fetch : String → List (String × JVal) → List (String × JVal))
    (base_url : String) (locations : List (String × JVal × JVal))
    (data_key : String) (export_ : Bool) (params : List (String × JVal))
    (dfs : List Table)
    (h : get_weather_data_multiple_locations fetch base_url locations
      data_key export_ params = .ok dfs) :
    dfs.length = locations.length ∧
    (∀ e2 : Bool, get_weather_data_multiple_locations fetch base_url
      locations data_key e2 params = .ok dfs) ∧
    ∀ i (h1 : i < locations.length) (h2 : i < dfs.length),
      ∃ w, get_weather_data_df fetch base_url data_key false Option.none
          (some (locations.get ⟨i, h1⟩).1)
          (("latitude", (locations.get ⟨i, h1⟩).2.1)
            :: ("longitude", (locations.get ⟨i, h1⟩).2.2) :: params)
        = .ok (dfs.get ⟨i, h2⟩, w) ∧ w = false := by
  unfold get_weather_data_multiple_locations at h
  refine ⟨mapM_ok_length h, fun e2 => h, ?_⟩
  intro i h1 h2
  have hg := mapM_ok_get h i h1 h2
  obtain ⟨a, ha, hfst⟩ := exceptMapOk hg
  obtain ⟨T, w⟩ := a
  have hT : T = dfs.get ⟨i, h2⟩ := hfst
  have hw : w = false := gw_export_false ha
  exact ⟨w, hT ▸ ha, hw⟩

/-- Locations for the C6 witness: insertion order A then B. -/
def locsW : List (String × JVal × JVal) :=
  [("A", JVal.num 1, JVal.num 2), ("B", JVal.num 3, JVal.num 4)]

/-- The Tables the driver produces on the sample data. -/
def dfsW : List Table :=
  (get_weather_data_multiple_locations fetchW
    "https://api.open-meteo.com/v1/forecast" locsW "hourly" true
    []).toOption.getD []

/-- Witness for C6: over `{A: (1,2), B: (3,4)}` the driver returns a
2-element list even though the caller passed `export=True`, and each element
comes from the single-location call with export off. -/
theorem c6_driver_witness :
    get_weather_data_multiple_locations fetchW
      "https://api.open-meteo.com/v1/forecast" locsW "hourly" true []
      = .ok dfsW ∧
    (dfsW.length = locsW.length ∧
    (∀ e2 : Bool, get_weather_data_multiple_locations fetchW
      "https://api.open-meteo.com/v1/forecast" locsW "hourly" e2 []
        = .ok dfsW) ∧
    ∀ i (h1 : i < locsW.length) (h2 : i < dfsW.length),
      ∃ w, get_weather_data_df fetchW
          "https://api.open-meteo.com/v1/forecast" "hourly" false Option.none
          (some (locsW.get ⟨i, h1⟩).1)
          (("latitude", (locsW.get ⟨i, h1⟩).2.1)
            :: ("longitude", (locsW.get ⟨i, h1⟩).2.2) :: [])
        = .ok (dfsW.get ⟨i, h2⟩, w) ∧ w = false) := by
  have hok : get_weather_data_multiple_locations fetchW
      "https://api.open-meteo.com/v1/forecast" locsW "hourly" true []
      = .ok dfsW := rfl
  exact ⟨hok, c6_driver fetchW "https://api.open-meteo.com/v1/forecast"
    locsW "hourly" true [] dfsW hok⟩

/-- C7: the `latitude`, `longitude` and `elevation` column values of the
returned Table are the response's top-level fields when present, else the
corresponding request parameters, else None (modelled as null); every row
of the respective column carries that value. -/
theorem c7_metadata_fallback
    (data_key : String) (export_ : Bool)
    (filename location_name : Option String)
    (params data wd : List (String × JVal)) (ts : List JVal)
    (hwd : data.lookup data_key = some (JVal.obj wd))
    (hts : wd.lookup "time" = some (JVal.arr ts))
    (hne : ts ≠ [])
    (hunits : unitsOkB data data_key = true)
    (htz : tzOkB data = true)
    (hser : ∀ kv ∈ wd, kv.1 ≠ "time" →
      isArr kv.2 = true ∧ ts.length ≤ arrLen kv.2)
    (hunit : ∀ kv ∈ wd, unitOkB (unitsD data data_key) kv.1 = true)
    (hnd : (labelsOf wd (unitsD data data_key)).Nodup)
    (htcn : ∀ l ∈ labelsOf wd (unitsD data data_key), l ≠ mkTimeCol (tzD data))
    (hmeta : ∀ l ∈ labelsOf wd (unitsD data data_key),
      l ≠ "latitude" ∧ l ≠ "longitude" ∧ l ≠ "elevation" ∧ l ≠ "location") :
    ∃ T w, buildFromResponse data_key export_ filename location_name params
        data = .ok (T, w) ∧
      T.cols.lookup "latitude" =
        some (List.replicate ts.length (respGet data params "latitude")) ∧
      T.cols.lookup "longitude" =
        some (List.replicate ts.length (respGet data params "longitude")) ∧
      T.cols.lookup "elevation" =
        some (List.replicate ts.length (respGet data params "elevation")) ∧
      (∀ field v, data.lookup field = some v →
        respGet data params field = v) ∧
      (∀ field, data.lookup field = Option.none →
        respGet data params field = (params.lookup field).getD JVal.null) := by
  obtain ⟨T, h1, _, _, h4, h5, h6⟩ := buildFromResponse_shape data_key
    export_ filename location_name params data wd ts hwd hts hne hunits htz
    hser hunit hnd htcn hmeta
  exact ⟨T, _, h1, h4, h5, h6,
    fun _ _ hf => respGet_of_data hf, fun _ hf => respGet_of_params hf⟩

/-- A sample response with no top-level `latitude`/`elevation` and no units
mapping, to exercise the parameter fallback. -/
def respF : List (String × JVal) :=
  [("longitude", JVal.num 74),
   ("timezone", JVal.str "UTC"),
   ("hourly", JVal.obj wdW)]

/-- Witness for C7 on `respF` with request parameter `latitude=11`:
latitude falls back to the parameter, longitude comes from the response,
elevation (in neither) becomes null. -/
theorem c7_metadata_fallback_witness :
    respF.lookup "latitude" = Option.none ∧
    respGet respF [("latitude", JVal.num 11)] "latitude" = JVal.num 11 ∧
    respGet respF [("latitude", JVal.num 11)] "longitude" = JVal.num 74 ∧
    respGet respF [("latitude", JVal.num 11)] "elevation" = JVal.null ∧
    (∃ T w, buildFromResponse "hourly" false Option.none Option.none
        [("latitude", JVal.num 11)] respF = .ok (T, w) ∧
      T.cols.lookup "latitude" = some (List.replicate tsW.length
        (respGet respF [("latitude", JVal.num 11)] "latitude")) ∧
      T.cols.lookup "longitude" = some (List.replicate tsW.length
        (respGet respF [("latitude", JVal.num 11)] "longitude")) ∧
      T.cols.lookup "elevation" = some (List.replicate tsW.length
        (respGet respF [("latitude", JVal.num 11)] "elevation")) ∧
      (∀ field v, respF.lookup field = some v →
        respGet respF [("latitude", JVal.num 11)] field = v) ∧
      (∀ field, respF.lookup field = Option.none →
        respGet respF [("latitude", JVal.num 11)] field =
          ([("latitude", JVal.num 11)].lookup field).getD JVal.null)) := by
  refine ⟨rfl, rfl, rfl, rfl, ?_⟩
  exact c7_metadata_fallback "hourly" false Option.none Option.none
    [("latitude", JVal.num 11)] respF wdW tsW rfl rfl (by simp [tsW]) rfl
    rfl (by decide) (by decide) (by decide) (by decide) (by decide)

/-- C8: when some non-time series under the data key is shorter than the
timestamp array (all series being arrays at least as long as the shortest
one), the reshaping loop fails with an `IndexError` — there is no dedicated
alignment error and no up-front length validation: every row at an index
below the short series' length is still built successfully, and the row at
the first index past its length is the one that fails. -/
theorem c8_short_series
    (data_key : String) (export_ : Bool)
    (filename location_name : Option String)
    (params data wd : List (String × JVal)) (ts : List JVal)
    (k : String) (vs : List JVal)
    (hwd : data.lookup data_key = some (JVal.obj wd))
    (hts : wd.lookup "time" = some (JVal.arr ts))
    (hunits : unitsOkB data data_key = true)
    (htz : tzOkB data = true)
    (hk : (k, JVal.arr vs) ∈ wd) (hkt : k ≠ "time")
    (hshort : vs.length < ts.length)
    (hmin : ∀ kv ∈ wd, kv.1 ≠ "time" →
      isArr kv.2 = true ∧ vs.length ≤ arrLen kv.2)
    (hunit : ∀ kv ∈ wd, unitOkB (unitsD data data_key) kv.1 = true) :
    buildFromResponse data_key export_ filename location_name params data
      = .error .indexOutOfRange ∧
    (∀ i < vs.length, ∃ r, buildRow (mkTimeCol (tzD data)) wd
      (unitsD data data_key) i (ts.getD i JVal.null) = .ok r) ∧
    buildRow (mkTimeCol (tzD data)) wd (unitsD data data_key) vs.length
      (ts.getD vs.length JVal.null) = .error .indexOutOfRange := by
  have hgs : getSeries data data_key = .ok wd := by
    unfold getSeries; rw [hwd]
  have hgt : getTimestamps wd = .ok ts := by
    unfold getTimestamps; rw [hts]
  have hbe := @buildRows_error (mkTimeCol (tzD data)) wd
    (unitsD data data_key) ts k vs hk hkt hshort hmin hunit
  refine ⟨?_, ?_, ?_⟩
  · unfold buildFromResponse
    rw [hgs, getUnits_eq hunits, getTimezone_eq htz]
    simp only [Except.bind, hgt, hbe]
  · intro i hi
    exact rowLoop_ok_exists wd _
      (fun kv hkv ht =>
        ⟨(hmin kv hkv ht).1, Nat.lt_of_lt_of_le hi (hmin kv hkv ht).2⟩)
      hunit
  · exact buildRow_error
      (fun kv hkv ht => ⟨(hmin kv hkv ht).1, hunit kv hkv⟩)
      ⟨(k, JVal.arr vs), hk, hkt, by simp [arrLen]⟩

/-- A response whose `temperature_2m` series (1 value) is shorter than its
time array (3 values). -/
def respS : List (String × JVal) :=
  [("timezone", JVal.str "UTC"),
   ("hourly", JVal.obj
     [("time", JVal.arr [JVal.str "t0", JVal.str "t1", JVal.str "t2"]),
      ("temperature_2m", JVal.arr [JVal.num 5])])]

/-- Witness for C8 on `respS`: the call fails with an `IndexError`, row 0
is built fine, and the row at index 1 (the first past the short series)
fails. -/
theorem c8_short_series_witness :
    respS.lookup "hourly" = some (JVal.obj
      [("time", JVal.arr [JVal.str "t0", JVal.str "t1", JVal.str "t2"]),
       ("temperature_2m", JVal.arr [JVal.num 5])]) ∧
    (buildFromResponse "hourly" false Option.none Option.none [] respS
      = .error .indexOutOfRange ∧
    (∀ i < ([JVal.num 5] : List JVal).length, ∃ r,
      buildRow (mkTimeCol (tzD respS))
        [("time", JVal.arr [JVal.str "t0", JVal.str "t1", JVal.str "t2"]),
         ("temperature_2m", JVal.arr [JVal.num 5])]
        (unitsD respS "hourly") i
        (([JVal.str "t0", JVal.str "t1", JVal.str "t2"] : List JVal).getD i
          JVal.null) = .ok r) ∧
    buildRow (mkTimeCol (tzD respS))
      [("time", JVal.arr [JVal.str "t0", JVal.str "t1", JVal.str "t2"]),
       ("temperature_2m", JVal.arr [JVal.num 5])]
      (unitsD respS "hourly") ([JVal.num 5] : List JVal).length
      (([JVal.str "t0", JVal.str "t1", JVal.str "t2"] : List JVal).getD
        ([JVal.num 5] : List JVal).length JVal.null)
      = .error .indexOutOfRange) := by
  refine ⟨rfl, ?_⟩
  exact c8_short_series "hourly" false Option.none Option.none [] respS
    [("time", JVal.arr [JVal.str "t0", JVal.str "t1", JVal.str "t2"]),
     ("temperature_2m", JVal.arr [JVal.num 5])]
    [JVal.str "t0", JVal.str "t1", JVal.str "t2"]
    "temperature_2m" [JVal.num 5] rfl rfl rfl rfl
    (List.mem_cons_of_mem _ (List.mem_cons_self _ _)) (by decide)
    (by decide) (by decide) (by decide)

/-- C9: when the data key is present but the `time` array under it is
absent or empty, the reshaping loop produces zero rows, the DataFrame has
no time column, and the lookup of the first column starting with `time`
fails with an `IndexError` — no empty Table is returned. -/
theorem c9_empty_time
    (data_key : String) (export_ : Bool)
    (filename location_name : Option String)
    (params data wd : List (String × JVal))
    (hwd : data.lookup data_key = some (JVal.obj wd))
    (hts : wd.lookup "time" = Option.none ∨
      wd.lookup "time" = some (JVal.arr []))
    (hunits : unitsOkB data data_key = true)
    (htz : tzOkB data = true) :
    buildRows (mkTimeCol (tzD data)) wd (unitsD data data_key) [] = .ok [] ∧
    buildFromResponse data_key export_ filename location_name params data
      = .error .indexOutOfRange := by
  have hgs : getSeries data data_key = .ok wd := by
    unfold getSeries; rw [hwd]
  have hgt : getTimestamps wd = .ok ([] : List JVal) := by
    unfold getTimestamps
    rcases hts with h | h <;> rw [h]
  refine ⟨rfl, ?_⟩
  unfold buildFromResponse
  rw [hgs, getUnits_eq hunits, getTimezone_eq htz]
  simp only [Except.bind, hgt]
  rfl

/-- A response whose `hourly` object has no `time` array at all. -/
def respE : List (String × JVal) :=
  [("timezone", JVal.str "UTC"),
   ("hourly", JVal.obj [("temperature_2m", JVal.arr [JVal.num 5])])]

/-- Witness for C9 on `respE`: the data key is present, `time` is absent,
and the call fails with an `IndexError` instead of returning an empty
Table. -/
theorem c9_empty_time_witness :
    respE.lookup "hourly" = some (JVal.obj
      [("temperature_2m", JVal.arr [JVal.num 5])]) ∧
    [("temperature_2m", JVal.arr [JVal.num 5])].lookup "time"
      = Option.none ∧
    (buildRows (mkTimeCol (tzD respE))
      [("temperature_2m", JVal.arr [JVal.num 5])] (unitsD respE "hourly") []
      = .ok [] ∧
    buildFromResponse "hourly" false Option.none Option.none [] respE
      = .error .indexOutOfRange) := by
  refine ⟨rfl, rfl, ?_⟩
  exact c9_empty_time "hourly" false Option.none Option.none [] respE
    [("temperature_2m", JVal.arr [JVal.num 5])] rfl (Or.inl rfl) rfl rfl

end AgriTech
